import Mathlib

/-!
# GPCS4 graphics layer: shader binary locator, render target aggregator, frame orchestrator

Shallow embedding of
* `GPCS4/Graphic/Pssl/PsslProgramInfo.cpp` (namespace `pssl`),
* `GPCS4/Graphic/Gve/GveFrameBuffer.cpp` (namespace `gve`),
* `GPCS4/Graphic/Sce/SceGnmDriver.cpp` (namespace `sce`),
followed by the theorems about them.
-/

set_option autoImplicit false
set_option linter.unusedVariables false

namespace pssl

/-! ## Memory and the declarations of `PsslProgramInfo.h` -/

/-- Byte-addressed memory: the byte stored at every address.  A pointer is an
address (`Int`), the null pointer is address `0`. -/
abbrev Memory := Int → Nat

/-- The `n` bytes stored at `addr, addr + 1, ..., addr + n - 1` (what `memcpy`
from `addr` copies and what a struct overlaid at `addr` is read from). -/
def readBytes (mem : Memory) (addr : Int) (n : Nat) : List Nat :=
  (List.range n).map (fun j => mem (addr + (j : Int)))

/-- Macro `#define SHADER_BINARY_INFO_SIG "OrbShdr"`: the bytes of the string literal,
with its terminating NUL. -/
def SHADER_BINARY_INFO_SIG : List Nat := [79, 114, 98, 83, 104, 100, 114, 0]

/-- Macro `#define SHADER_BINARY_INFO_SEARCH_MAX (1024 * 1024 * 5)`. -/
def SHADER_BINARY_INFO_SEARCH_MAX : Nat := 1024 * 1024 * 5

/-- Modelled from the spec: `sizeof(m_shaderBinaryInfo.signature)`.  The
declaration of `ShaderBinaryInfo` is in `PsslProgramInfo.h`, which is not among
the sources; the spec (data model, ShaderBinaryHeader) fixes the signature at
7 bytes. -/
def sigLen : Nat := 7

/-- Whether `std::memcmp(p, lit, n)` is `0`: the `n` bytes at `p` are the first
`n` bytes of the literal. -/
def memcmpIsZero (mem : Memory) (p : Int) (lit : List Nat) (n : Nat) : Bool :=
  decide (readBytes mem p n = lit.take n)

/-- Modelled from the spec: the declarations of `PsslProgramInfo.h` that the
functions below use and that are not among the sources, taken as a parameter.
A `ShaderBinaryInfo` and an `InputUsageSlot` are kept as the raw bytes of the
record (`memcpy` and `push_back` copy them verbatim); the layout says how many
bytes a record has and how each field the code reads is decoded from them.
The two table fields are unsigned fields narrower than `int` (spec: all fields
are fixed-width integers, a slot count and an offset in 32-bit words), so that
the count fits `int32_t` and `chunkUsageBaseOffsetInDW * 4` does not overflow. -/
structure ShaderBinaryLayout where
  /-- Size `sizeof(ShaderBinaryInfo)` -/
  headerSize : Nat
  /-- Size `sizeof(InputUsageSlot)` -/
  slotSize : Nat
  /-- field `length` of a header -/
  length : List Nat → Nat
  /-- field `type` of a header -/
  type : List Nat → Nat
  /-- field `crc32` of a header -/
  crc32 : List Nat → Nat
  /-- field `shaderHash0` of a header -/
  shaderHash0 : List Nat → Nat
  /-- field `chunkUsageBaseOffsetInDW` of a header -/
  chunkUsageBaseOffsetInDW : List Nat → Nat
  /-- field `numInputUsageSlots` of a header -/
  numInputUsageSlots : List Nat → Nat
  /-- field `usageType` of a slot -/
  usageType : List Nat → Nat
  /-- field `startRegister` of a slot -/
  startRegister : List Nat → Nat
  /-- enumerator `kShaderInputUsageSubPtrFetchShader` -/
  kShaderInputUsageSubPtrFetchShader : Nat
  /-- enumerators of `ShaderBinaryType` -/
  kShaderTypePs : Nat
  kShaderTypeVsVs : Nat
  kShaderTypeVsEs : Nat
  kShaderTypeVsLs : Nat
  kShaderTypeCs : Nat
  kShaderTypeGs : Nat
  kShaderTypeHs : Nat
  kShaderTypeDsVs : Nat
  /-- the offset field times 4 stays an `int` -/
  chunkUsage_lt : ∀ h, chunkUsageBaseOffsetInDW h * 4 < 2 ^ 31
  /-- the count field fits `int32_t` -/
  numSlots_lt : ∀ h, numInputUsageSlots h < 2 ^ 31

/-- Raw bytes of one `ShaderBinaryInfo`. -/
abbrev ShaderBinaryInfo := List Nat

/-- Raw bytes of one `InputUsageSlot`. -/
abbrev InputUsageSlot := List Nat

/-- Type `enum PsslProgramType`, the enumerators `getShaderType` returns. -/
inductive PsslProgramType
  | UnknownShader
  | PixelShader
  | VertexShader
  | ComputeShader
  | GeometryShader
  | HullShader
  | DomainShader
  deriving DecidableEq

/-- The data members of `class PsslProgramInfo`.  `m_shaderBinaryInfo` has no
initialiser: before `initBinaryInfo` it holds whatever it held. -/
structure PsslProgramInfo where
  m_code : Int
  m_shaderBinaryInfo : ShaderBinaryInfo
  m_inputUsageSlots : List InputUsageSlot

/-- Conversion of an unsigned value to `int32_t`. -/
def toInt32 (n : Nat) : Int :=
  if n % 2 ^ 32 < 2 ^ 31 then ((n % 2 ^ 32 : Nat) : Int) else ((n % 2 ^ 32 : Nat) : Int) - 2 ^ 32

/-- Conversion of a signed value to `uint32_t`. -/
def toUInt32 (z : Int) : Nat := (z % 2 ^ 32).toNat

/-! ## `PsslProgramInfo.cpp` -/

/-- The search loop of `initBinaryInfo`,
`for (uint32_t i = 0; i != SHADER_BINARY_INFO_SEARCH_MAX; ++i)`, from index `i`
with `todo` iterations left: the first `i` whose `memcmp` is `0`, if any. -/
def findSignature (mem : Memory) (code : Int) : Nat → Nat → Option Nat
  | 0, _ => none
  | todo + 1, i =>
    if memcmpIsZero mem (code + (i : Int)) SHADER_BINARY_INFO_SIG sigLen then some i
    else findSignature mem code todo (i + 1)

/-- The copy loop of `initBinaryInfo`,
`for (uint32_t j = 0; j != inputUsageSlotsCount; ++j) m_inputUsageSlots.push_back(inputUsageSlots[j]);`
from index `j` with `todo` iterations left. -/
def copySlots (mem : Memory) (inputUsageSlots : Int) (slotSize : Nat) :
    Nat → Nat → List InputUsageSlot → List InputUsageSlot
  | 0, _, slots => slots
  | todo + 1, j, slots =>
    copySlots mem inputUsageSlots slotSize todo (j + 1)
      (slots ++ [readBytes mem (inputUsageSlots + (j : Int) * (slotSize : Int)) slotSize])

/-- Function `bool PsslProgramInfo::initBinaryInfo(const uint8_t* code)`: the returned
flag and the object afterwards. -/
def initBinaryInfo (L : ShaderBinaryLayout) (mem : Memory) (code : Int)
    (self : PsslProgramInfo) : Bool × PsslProgramInfo :=
  if code = 0 then (false, self)
  else
    match findSignature mem code SHADER_BINARY_INFO_SEARCH_MAX 0 with
    | none => (false, self)
    | some i =>
      let info : Int := code + (i : Int)
      let hdr := readBytes mem info L.headerSize
      let usageMasks : Int := info - ((L.chunkUsageBaseOffsetInDW hdr * 4 : Nat) : Int)
      let inputUsageSlotsCount : Int := toInt32 (L.numInputUsageSlots hdr)
      let inputUsageSlots : Int := usageMasks - inputUsageSlotsCount * (L.slotSize : Int)
      (true,
        { self with
          m_shaderBinaryInfo := hdr
          m_inputUsageSlots :=
            copySlots mem inputUsageSlots L.slotSize (toUInt32 inputUsageSlotsCount) 0
              self.m_inputUsageSlots })

/-- Function `PsslProgramInfo::PsslProgramInfo(const uint8_t* code)`: `m_code` is set,
the slot vector starts empty, the header member starts with the bytes `junk`
it happened to hold, and `initBinaryInfo` runs.  The flag is the asserted
`success`. -/
def PsslProgramInfo.construct (L : ShaderBinaryLayout) (mem : Memory) (code : Int)
    (junk : ShaderBinaryInfo) : Bool × PsslProgramInfo :=
  initBinaryInfo L mem code { m_code := code, m_shaderBinaryInfo := junk, m_inputUsageSlots := [] }

/-- Function `uint32_t PsslProgramInfo::getCodeSizeBytes() const`. -/
def getCodeSizeBytes (L : ShaderBinaryLayout) (self : PsslProgramInfo) : Nat :=
  L.length self.m_shaderBinaryInfo

/-- Function `bool PsslProgramInfo::hasFetchShader()`: the range-for over
`m_inputUsageSlots` that stops at the first fetch-shader slot. -/
def hasFetchShaderLoop (L : ShaderBinaryLayout) : List InputUsageSlot → Bool
  | [] => false
  | slot :: rest =>
    if L.usageType slot ≠ L.kShaderInputUsageSubPtrFetchShader then hasFetchShaderLoop L rest
    else true

/-- Function `bool PsslProgramInfo::hasFetchShader()`. -/
def hasFetchShader (L : ShaderBinaryLayout) (self : PsslProgramInfo) : Bool :=
  hasFetchShaderLoop L self.m_inputUsageSlots

/-- Function `PsslProgramType PsslProgramInfo::getShaderType() const`: the `switch` on
`m_shaderBinaryInfo.type`. -/
def getShaderType (L : ShaderBinaryLayout) (self : PsslProgramInfo) : PsslProgramType :=
  let t := L.type self.m_shaderBinaryInfo
  if t = L.kShaderTypePs then .PixelShader
  else if t = L.kShaderTypeVsVs then .VertexShader
  else if t = L.kShaderTypeCs then .ComputeShader
  else if t = L.kShaderTypeGs then .GeometryShader
  else if t = L.kShaderTypeHs then .HullShader
  else if t = L.kShaderTypeDsVs then .DomainShader
  else if t = L.kShaderTypeVsEs ∨ t = L.kShaderTypeVsLs then .UnknownShader
  else .UnknownShader

/-- Function `uint32_t PsslProgramInfo::getInputUsageSlotCount() const`. -/
def getInputUsageSlotCount (L : ShaderBinaryLayout) (self : PsslProgramInfo) : Nat :=
  L.numInputUsageSlots self.m_shaderBinaryInfo

/-- Function `std::vector<InputUsageSlot> PsslProgramInfo::getInputUsageSlots() const`. -/
def getInputUsageSlots (self : PsslProgramInfo) : List InputUsageSlot :=
  self.m_inputUsageSlots

/-- A concrete layout for evaluation: a 28-byte header (signature, version, a
32-bit little-endian bitfield word with `type` in bits 2..5 and `length` in
bits 8..31, then one byte each for the offset and the slot count) and 4-byte
slots (`usageType`, `apiSlot`, `startRegister`, one more byte). -/
def orbisLayout : ShaderBinaryLayout where
  headerSize := 28
  slotSize := 4
  length := fun h => h.getD 9 0 % 256 + 256 * (h.getD 10 0 % 256) + 65536 * (h.getD 11 0 % 256)
  type := fun h => h.getD 8 0 / 4 % 16
  crc32 := fun h => h.getD 24 0 % 256
  shaderHash0 := fun h => h.getD 16 0 % 256
  chunkUsageBaseOffsetInDW := fun h => h.getD 12 0 % 256
  numInputUsageSlots := fun h => h.getD 13 0 % 256
  usageType := fun s => s.getD 0 0 % 256
  startRegister := fun s => s.getD 2 0 % 256
  kShaderInputUsageSubPtrFetchShader := 18
  kShaderTypePs := 0
  kShaderTypeVsVs := 1
  kShaderTypeVsEs := 2
  kShaderTypeVsLs := 3
  kShaderTypeCs := 4
  kShaderTypeGs := 5
  kShaderTypeHs := 7
  kShaderTypeDsVs := 8
  chunkUsage_lt := fun h => by
    show h.getD 12 0 % 256 * 4 < 2 ^ 31
    omega
  numSlots_lt := fun h => by
    show h.getD 13 0 % 256 < 2 ^ 31
    omega

/-- A sample shader blob placed at address `4096`: two 4-byte slots, one word
of usage masks, then the header. -/
def sampleBlob : List Nat :=
  [0, 0, 4, 0,  18, 0, 8, 0,            -- two InputUsageSlot records
   255, 255, 255, 255,                  -- usage masks (1 dword)
   79, 114, 98, 83, 104, 100, 114, 7,   -- "OrbShdr", version
   4, 64, 1, 0,                         -- bitfield word: type 1, length 0x000140
   1, 2, 0, 0,                          -- chunkUsageBaseOffsetInDW 1, numInputUsageSlots 2
   11, 0, 0, 0,  12, 0, 0, 0,  13, 0, 0, 0]

/-- Memory holding `sampleBlob` at address `4096` and zero bytes elsewhere. -/
def sampleMem : Memory := fun a =>
  if 4096 ≤ a then sampleBlob.getD (a - 4096).toNat 0 else 0

/-- Memory with no signature anywhere: all bytes zero. -/
def zeroMem : Memory := fun _ => 0

/-- The 7-byte signature "OrbShdr" occurs at byte offset `i` of the buffer
that starts at `code`. -/
def signatureAt (mem : Memory) (code : Int) (i : Nat) : Prop :=
  readBytes mem (code + (i : Int)) 7 = [79, 114, 98, 83, 104, 100, 114]

instance (mem : Memory) (code : Int) (i : Nat) : Decidable (signatureAt mem code i) := by
  unfold signatureAt; infer_instance

end pssl

namespace gve

/-! ## The declarations `GveFrameBuffer.cpp` uses -/

/-- Type `VkExtent3D`. -/
structure VkExtent3D where
  width : Nat
  height : Nat
  depth : Nat

/-- What `GveImageView::info()` returns, as far as the code reads it. -/
structure GveImageViewCreateInfo where
  format : Nat
  numLayers : Nat

/-- What `GveImageView::imageInfo()` returns, as far as the code reads it. -/
structure GveImageCreateInfo where
  sampleCount : Nat

/-- A `GveImageView`, as far as the code reads it: `handle()`,
`mipLevelExtent(level)`, `info()` and `imageInfo()`. -/
structure GveImageView where
  handle : Nat
  mipLevelExtent : Nat → VkExtent3D
  info : GveImageViewCreateInfo
  imageInfo : GveImageCreateInfo

/-- Type `GveAttachment`: a view pointer (`none` is `nullptr`) and a layout. -/
structure GveAttachment where
  view : Option GveImageView
  layout : Nat

/-- Type `GveRenderTargets`.  The constant `MaxNumRenderTargets` is declared in a
header that is not among the sources and is taken as a parameter: it is the
length of `color` (a `GveAttachment color[MaxNumRenderTargets]`), and every
loop `for (i = 0; i < MaxNumRenderTargets; i++)` runs over that list. -/
structure GveRenderTargets where
  color : List GveAttachment
  depth : GveAttachment

/-- Type `GveFramebufferSize`. -/
structure GveFramebufferSize where
  width : Nat
  height : Nat
  layers : Nat
  deriving DecidableEq

/-- Format and layout of one attachment in a `GveRenderPassFormat`. -/
structure GveAttachmentFormat where
  format : Nat
  layout : Nat
  deriving DecidableEq

/-- Type `GveRenderPassFormat`, the fields `getRenderPassFormat` writes; `color` is
the array indexed by slot. -/
structure GveRenderPassFormat where
  sampleCount : Nat
  color : Nat → GveAttachmentFormat
  depth : GveAttachmentFormat

/-- The value of `GveRenderPassFormat format = {};`: every field zero. -/
def GveRenderPassFormat.zero : GveRenderPassFormat :=
  { sampleCount := 0, color := fun _ => ⟨0, 0⟩, depth := ⟨0, 0⟩ }

/-- A `GveRenderPass`, as far as the code reads it: `getDefaultHandle()`. -/
structure GveRenderPass where
  getDefaultHandle : Nat

/-- What an entry of `m_attachments` points to: `&renderTargets.color[i]` or
`&renderTargets.depth`. -/
inductive AttachmentRef
  | color (i : Nat)
  | depth
  deriving DecidableEq

/-- The slot of `renderTargets` an `AttachmentRef` points to. -/
def AttachmentRef.deref (renderTargets : GveRenderTargets) : AttachmentRef → Option GveAttachment
  | .color i => renderTargets.color[i]?
  | .depth => some renderTargets.depth

/-- Type `VkFramebufferCreateInfo`, the fields `createFrameBuffer` sets (the others
are zero).  `pAttachments` is the array `attachmentViews`; an entry that was
never written is `none`. -/
structure VkFramebufferCreateInfo where
  sType : Nat
  renderPass : Nat
  pAttachments : Nat → Option Nat
  attachmentCount : Nat
  width : Nat
  height : Nat
  layers : Nat

/-- Constant `VK_STRUCTURE_TYPE_FRAMEBUFFER_CREATE_INFO`. -/
def VK_STRUCTURE_TYPE_FRAMEBUFFER_CREATE_INFO : Nat := 37

/-- The attachment views the native call receives: the first `attachmentCount`
entries of `pAttachments`. -/
def VkFramebufferCreateInfo.attachments (info : VkFramebufferCreateInfo) : List (Option Nat) :=
  (List.range info.attachmentCount).map info.pAttachments

/-- The data members of `class GveFrameBuffer` that the code uses.
`m_attachments` is the array of attachment pointers (`none`: not set),
`m_frameBuffer` the native handle. -/
structure GveFrameBuffer where
  m_renderTargets : GveRenderTargets
  m_renderPass : Option GveRenderPass
  m_attachments : Nat → Option AttachmentRef
  m_attachmentCount : Nat
  m_frameBuffer : Nat

/-! ## `GveFrameBuffer.cpp` -/

/-- Function `GveFramebufferSize GveFrameBuffer::getRenderTargetSize(const RcPtr<GveImageView>&) const`. -/
def getRenderTargetSize (renderTarget : GveImageView) : GveFramebufferSize :=
  let extent := renderTarget.mipLevelExtent 0
  let layers := renderTarget.info.numLayers
  { width := extent.width, height := extent.height, layers := layers }

/-- The color loop of `computeRenderSize`. -/
def computeRenderSizeColors : List GveAttachment → GveFramebufferSize → GveFramebufferSize
  | [], minSize => minSize
  | a :: rest, minSize =>
    match a.view with
    | none => computeRenderSizeColors rest minSize
    | some view =>
      let colorSize := getRenderTargetSize view
      computeRenderSizeColors rest
        { width := min minSize.width colorSize.width
          height := min minSize.height colorSize.height
          layers := min minSize.layers colorSize.layers }

/-- Function `GveFramebufferSize GveFrameBuffer::computeRenderSize(const GveFramebufferSize&) const`;
it reads the member `m_renderTargets`. -/
def computeRenderSize (m_renderTargets : GveRenderTargets) (defaultSize : GveFramebufferSize) :
    GveFramebufferSize :=
  let minSize :=
    match m_renderTargets.depth.view with
    | none => defaultSize
    | some view =>
      let depthSize := getRenderTargetSize view
      { width := min defaultSize.width depthSize.width
        height := min defaultSize.height depthSize.height
        layers := min defaultSize.layers depthSize.layers }
  computeRenderSizeColors m_renderTargets.color minSize

/-- The color loop of `getRenderPassFormat` from slot `i`.  A slot whose view
is non-null is skipped by `continue`; for the others the three assignments
go through `view->`, and dereferencing the null view has no value (`none`). -/
def getRenderPassFormatColors :
    List GveAttachment → Nat → GveRenderPassFormat → Option GveRenderPassFormat
  | [], _, format => some format
  | a :: rest, i, format =>
    if a.view.isSome then getRenderPassFormatColors rest (i + 1) format
    else
      a.view.bind fun view =>
        getRenderPassFormatColors rest (i + 1)
          { format with
            sampleCount := view.imageInfo.sampleCount
            color := Function.update format.color i ⟨view.info.format, a.layout⟩ }

/-- Function `GveRenderPassFormat GveFrameBuffer::getRenderPassFormat(const GveRenderTargets&)`;
`none` when a null view is dereferenced. -/
def getRenderPassFormat (renderTargets : GveRenderTargets) : Option GveRenderPassFormat :=
  (getRenderPassFormatColors renderTargets.color 0 GveRenderPassFormat.zero).map fun format =>
    match renderTargets.depth.view with
    | some view =>
      { format with
        sampleCount := view.imageInfo.sampleCount
        depth := ⟨view.info.format, renderTargets.depth.layout⟩ }
    | none => format

/-- The color loop of `createFrameBuffer` from slot `i`, on the local array
`attachmentViews` and the object. -/
def packColors : List GveAttachment → Nat → (Nat → Option Nat) × GveFrameBuffer →
    (Nat → Option Nat) × GveFrameBuffer
  | [], _, st => st
  | a :: rest, i, (attachmentViews, self) =>
    match a.view with
    | none => packColors rest (i + 1) (attachmentViews, self)
    | some view =>
      packColors rest (i + 1)
        (Function.update attachmentViews self.m_attachmentCount (some view.handle),
          { self with
            m_attachments :=
              Function.update self.m_attachments self.m_attachmentCount (some (.color i))
            m_attachmentCount := self.m_attachmentCount + 1 })

/-- The depth step of `createFrameBuffer`. -/
def packDepth (depth : GveAttachment) :
    (Nat → Option Nat) × GveFrameBuffer → (Nat → Option Nat) × GveFrameBuffer
  | (attachmentViews, self) =>
    match depth.view with
    | none => (attachmentViews, self)
    | some view =>
      (Function.update attachmentViews self.m_attachmentCount (some view.handle),
        { self with
          m_attachments :=
            Function.update self.m_attachments self.m_attachmentCount (some .depth)
          m_attachmentCount := self.m_attachmentCount + 1 })

/-- What a call of `createFrameBuffer` leaves: the returned flag, the object,
and the `VkFramebufferCreateInfo` of every `vkCreateFramebuffer` call made. -/
structure CreateFrameBufferResult where
  ret : Bool
  self : GveFrameBuffer
  nativeCalls : List VkFramebufferCreateInfo

/-- Function `bool GveFrameBuffer::createFrameBuffer(const GveRenderTargets&, GveRenderPass*, const GveFramebufferSize&)`.
`vkCreateFramebuffer` is the native call: `some h` is `VK_SUCCESS` with the
handle `h` written to `m_frameBuffer`, `none` any other result.  The result is
`none` when the member `m_renderPass` is dereferenced while null. -/
def createFrameBuffer (vkCreateFramebuffer : VkFramebufferCreateInfo → Option Nat)
    (self : GveFrameBuffer) (renderTargets : GveRenderTargets)
    (renderPass : Option GveRenderPass) (defaultSize : GveFramebufferSize) :
    Option CreateFrameBufferResult :=
  match renderPass with
  | none => some { ret := false, self := self, nativeCalls := [] }
  | some _ =>
    let fbSize := computeRenderSize self.m_renderTargets defaultSize
    let st := packDepth renderTargets.depth
      (packColors renderTargets.color 0 (fun _ => none, self))
    st.2.m_renderPass.bind fun m_renderPass =>
      let framebufferInfo : VkFramebufferCreateInfo :=
        { sType := VK_STRUCTURE_TYPE_FRAMEBUFFER_CREATE_INFO
          renderPass := m_renderPass.getDefaultHandle
          pAttachments := st.1
          attachmentCount := st.2.m_attachmentCount
          width := fbSize.width
          height := fbSize.height
          layers := fbSize.layers }
      match vkCreateFramebuffer framebufferInfo with
      | none => some { ret := false, self := st.2, nativeCalls := [framebufferInfo] }
      | some h =>
        some { ret := true, self := { st.2 with m_frameBuffer := h },
               nativeCalls := [framebufferInfo] }

/-- Function `GveFrameBuffer::GveFrameBuffer(device, renderTargets, renderPass, defaultSize)`:
the members are initialised from the arguments, `m_attachmentCount` starts at 0
and no attachment pointer is set, then `createFrameBuffer` runs. -/
def GveFrameBuffer.construct (vkCreateFramebuffer : VkFramebufferCreateInfo → Option Nat)
    (renderTargets : GveRenderTargets) (renderPass : Option GveRenderPass)
    (defaultSize : GveFramebufferSize) : Option CreateFrameBufferResult :=
  createFrameBuffer vkCreateFramebuffer
    { m_renderTargets := renderTargets, m_renderPass := renderPass,
      m_attachments := fun _ => none, m_attachmentCount := 0, m_frameBuffer := 0 }
    renderTargets renderPass defaultSize

/-- The non-null color slots of a list of slots numbered from `i`, by
increasing index, each with its view. -/
def boundColors (color : List GveAttachment) (i : Nat) : List (AttachmentRef × GveImageView) :=
  (color.enumFrom i).filterMap fun p => p.2.view.map fun view => (AttachmentRef.color p.1, view)

/-- The non-null slots of a `RenderTargets` aggregate: the non-null color
slots in increasing slot index, followed by the depth slot if it is non-null. -/
def boundSlots (renderTargets : GveRenderTargets) : List (AttachmentRef × GveImageView) :=
  boundColors renderTargets.color 0 ++
    (match renderTargets.depth.view with
     | none => []
     | some view => [(AttachmentRef.depth, view)])

/-- An image view of extent `w × h` at mip level 0 with `l` layers. -/
def sampleView (handle w h l : Nat) : GveImageView :=
  { handle := handle, mipLevelExtent := fun _ => ⟨w, h, 1⟩,
    info := ⟨44, l⟩, imageInfo := ⟨1⟩ }

/-- No attachment bound: 8 null color slots and a null depth slot. -/
def noTargets : GveRenderTargets :=
  { color := List.replicate 8 ⟨none, 0⟩, depth := ⟨none, 0⟩ }

/-- One color attachment of extent (960, 540, 1) in slot 0 of 8, no depth. -/
def oneColorTarget : GveRenderTargets :=
  { color := ⟨some (sampleView 7 960 540 1), 2⟩ :: List.replicate 7 ⟨none, 0⟩,
    depth := ⟨none, 0⟩ }

/-- Color views in slots 1 and 3 of 4 and a depth view. -/
def sparseTargets : GveRenderTargets :=
  { color := [⟨none, 0⟩, ⟨some (sampleView 11 640 480 1), 2⟩, ⟨none, 0⟩,
              ⟨some (sampleView 13 800 600 2), 2⟩],
    depth := ⟨some (sampleView 17 1024 768 1), 3⟩ }

/-- All 2 color slots bound, and a depth view. -/
def fullTargets : GveRenderTargets :=
  { color := [⟨some (sampleView 11 640 480 1), 2⟩, ⟨some (sampleView 13 800 600 2), 2⟩],
    depth := ⟨some (sampleView 17 1024 768 1), 3⟩ }

/-- The view `view` is bound in `renderTargets`: it is the depth view or the
view of some color slot. -/
def isBound (renderTargets : GveRenderTargets) (view : GveImageView) : Prop :=
  renderTargets.depth.view = some view ∨ ∃ a ∈ renderTargets.color, a.view = some view

/-- The number `m` is the minimum of `d` and of `f view` over the views bound
in `renderTargets`: it is below all of them and it is one of them. -/
def IsMinOver (renderTargets : GveRenderTargets) (f : GveImageView → Nat) (d m : Nat) : Prop :=
  m ≤ d ∧ (∀ view, isBound renderTargets view → m ≤ f view) ∧
    (m = d ∨ ∃ view, isBound renderTargets view ∧ m = f view)

/-- The array `arr` after the elements of `l` were written to the indices
`start, start + 1, ...` in turn. -/
def writeList {α : Type} (arr : Nat → Option α) (start : Nat) (l : List α) : Nat → Option α :=
  fun j => if start ≤ j ∧ j < start + l.length then l[j - start]? else arr j

end gve

namespace sce

/-! ## The declarations `SceGnmDriver.cpp` uses -/

/-- Constant `const int MAX_FRAMES_IN_FLIGHT = 2;` -/
def MAX_FRAMES_IN_FLIGHT : Nat := 2

/-- The two status codes of `sce_errors.h` (not among the sources) that
`submitAndFlipCommandBuffers` returns, as two distinct values. -/
inductive SceStatus
  | SCE_OK
  | SCE_GNM_ERROR_UNKNOWN
  deriving DecidableEq

/-- A call that leaves the driver for the command parser or the GPU, with the
arguments that matter.  A fence or semaphore is named by its index in
`m_inFlightFences`, `m_imageAvailableSemaphores`, `m_renderFinishedSemaphores`. -/
inductive GpuCall
  /-- Call `m_commandParsers[parser]->processCommandBuffer(dcb, size)` -/
  | processCommandBuffer (parser dcb size : Nat)
  /-- Call `vkWaitForFences(.., &m_inFlightFences[fence], VK_TRUE, UINT64_MAX)` -/
  | vkWaitForFences (fence : Nat)
  /-- Call `m_swapchain->acquireNextImage(m_imageAvailableSemaphores[semaphore], ..)` -/
  | acquireNextImage (semaphore : Nat)
  /-- Call `vkResetFences(.., &m_inFlightFences[fence])` -/
  | vkResetFences (fence : Nat)
  /-- Call `vkQueueSubmit` waiting on `m_imageAvailableSemaphores[wait]`, running
  `cmdBuffer`, signalling `m_renderFinishedSemaphores[signal]` and
  `m_inFlightFences[fence]` -/
  | vkQueueSubmit (wait cmdBuffer signal fence : Nat)
  /-- Call `vkQueuePresentKHR` waiting on `m_renderFinishedSemaphores[wait]` for
  image `imageIndex` -/
  | vkQueuePresentKHR (wait imageIndex : Nat)
  deriving DecidableEq

/-- How a call can end without returning. -/
inductive Fault
  /-- a failed `LOG_ASSERT` ended the process -/
  | assertionFailed
  /-- an array or vector was indexed outside its bounds -/
  | outOfBounds
  deriving DecidableEq

/-- The collaborators outside the driver, each a function of the calls made so
far: whether `processCommandBuffer` accepts the buffer, the handle of the
command buffer a parser recorded, and the image index `acquireNextImage`
writes. -/
structure GpuEnv where
  processCommandBuffer : List GpuCall → Nat → Nat → Nat → Bool
  execBufferHandle : List GpuCall → Nat → Nat
  acquireNextImage : List GpuCall → Nat → Nat

/-- The data members of `class SceGnmDriver` that the code below uses:
`m_currentFrame`, the size of `m_commandParsers`, and the log of the calls made
to the parsers and the GPU so far. -/
structure SceGnmDriver where
  m_currentFrame : Nat
  m_commandParsers : Nat
  calls : List GpuCall
  deriving DecidableEq

/-- The macro `LOG_ASSERT(expr, ...)`.  It is declared in `GPCS4Log.h`, which is
not among the sources, and is taken as a parameter.  It is used as a statement
both in constructors and in a function returning `int`, so it can neither
`break` nor `return` from the function around it: when `expr` is false it
either gives control back after logging (`assertReturns = true`) or ends the
process (`assertReturns = false`). -/
def LOG_ASSERT (assertReturns : Bool) (expr : Bool) : Except Fault Unit :=
  if expr || assertReturns then .ok () else .error .assertionFailed

/-! ## `SceGnmDriver.cpp` -/

/-- Function `void SceGnmDriver::submitCommandBufferAndPresent(const RcPtr<GveCommandBuffer>&)`:
the object afterwards.  The three sync arrays have `MAX_FRAMES_IN_FLIGHT`
entries (`createSyncObjects(MAX_FRAMES_IN_FLIGHT)` in the constructor). -/
def submitCommandBufferAndPresent (env : GpuEnv) (self : SceGnmDriver) (cmdBuffer : Nat) :
    Except Fault SceGnmDriver :=
  if self.m_currentFrame < MAX_FRAMES_IN_FLIGHT then
    let calls1 := self.calls ++ [GpuCall.vkWaitForFences self.m_currentFrame]
    let imageIndex := env.acquireNextImage calls1 self.m_currentFrame
    let calls2 := calls1 ++ [GpuCall.acquireNextImage self.m_currentFrame]
    let calls3 := calls2 ++ [GpuCall.vkResetFences self.m_currentFrame]
    let calls4 := calls3 ++
      [GpuCall.vkQueueSubmit self.m_currentFrame cmdBuffer self.m_currentFrame self.m_currentFrame]
    let calls5 := calls4 ++ [GpuCall.vkQueuePresentKHR self.m_currentFrame imageIndex]
    .ok { self with
          m_currentFrame := (self.m_currentFrame + 1) % MAX_FRAMES_IN_FLIGHT
          calls := calls5 }
  else .error .outOfBounds

/-- Function `int SceGnmDriver::submitAndFlipCommandBuffers(count, dcbGpuAddrs, dcbSizesInBytes,
ccbGpuAddrs, ccbSizesInBytes, videoOutHandle, displayBufferIndex, flipMode, flipArg)`:
when the call returns, the returned status and the object afterwards; when it
does not return, the fault together with the object as it is at that moment
(its log holds every call made to the parsers and the GPU before the fault).
The arrays are the lists of their elements. -/
def submitAndFlipCommandBuffers (assertReturns : Bool) (env : GpuEnv) (self : SceGnmDriver)
    (count : Nat) (dcbGpuAddrs dcbSizesInBytes ccbGpuAddrs ccbSizesInBytes : List Nat)
    (videoOutHandle displayBufferIndex flipMode : Nat) (flipArg : Int) :
    Except (Fault × SceGnmDriver) (SceStatus × SceGnmDriver) :=
  match LOG_ASSERT assertReturns (count == 1) with
  | .error fault => .error (fault, self)
  | .ok () =>
    if displayBufferIndex < self.m_commandParsers then
      match dcbGpuAddrs[0]?, dcbSizesInBytes[0]? with
      | some dcb, some size =>
        let calls1 := self.calls ++ [GpuCall.processCommandBuffer displayBufferIndex dcb size]
        if !env.processCommandBuffer self.calls displayBufferIndex dcb size then
          .ok (SceStatus.SCE_GNM_ERROR_UNKNOWN, { self with calls := calls1 })
        else
          let cmdBuffer := env.execBufferHandle calls1 displayBufferIndex
          match submitCommandBufferAndPresent env { self with calls := calls1 } cmdBuffer with
          | .error fault => .error (fault, { self with calls := calls1 })
          | .ok self2 => .ok (SceStatus.SCE_OK, self2)
      | _, _ => .error (Fault.outOfBounds, self)
    else .error (Fault.outOfBounds, self)

/-- Constant `SCE_VIDEO_HANDLE_MAIN`, the handle `submitCommandBuffers` passes on; it is
declared outside the sources and the callee does not read it. -/
def SCE_VIDEO_HANDLE_MAIN : Nat := 1

/-- Function `int SceGnmDriver::submitCommandBuffers(count, dcbGpuAddrs, dcbSizesInBytes,
ccbGpuAddrs, ccbSizesInBytes)`. -/
def submitCommandBuffers (assertReturns : Bool) (env : GpuEnv) (self : SceGnmDriver)
    (count : Nat) (dcbGpuAddrs dcbSizesInBytes ccbGpuAddrs ccbSizesInBytes : List Nat) :
    Except (Fault × SceGnmDriver) (SceStatus × SceGnmDriver) :=
  submitAndFlipCommandBuffers assertReturns env self count
    dcbGpuAddrs dcbSizesInBytes ccbGpuAddrs ccbSizesInBytes SCE_VIDEO_HANDLE_MAIN 0 0 0

/-- A parser that accepts every buffer, command buffer handle 9, image index 0. -/
def acceptingEnv : GpuEnv :=
  { processCommandBuffer := fun _ _ _ _ => true
    execBufferHandle := fun _ _ => 9
    acquireNextImage := fun _ _ => 0 }

/-- A driver set up with one command parser, at frame 0, before any call. -/
def freshDriver : SceGnmDriver :=
  { m_currentFrame := 0, m_commandParsers := 1, calls := [] }

end sce

namespace pssl

/-! ## Theorems about `PsslProgramInfo.cpp` -/

theorem memcmpIsZero_iff (mem : Memory) (code : Int) (i : Nat) :
    memcmpIsZero mem (code + (i : Int)) SHADER_BINARY_INFO_SIG sigLen = true ↔
      signatureAt mem code i := by
  simp [memcmpIsZero, signatureAt, SHADER_BINARY_INFO_SIG, sigLen]

theorem findSignature_first (mem : Memory) (code : Int) :
    ∀ (todo i k : Nat), i ≤ k → k < i + todo → signatureAt mem code k →
      (∀ j, i ≤ j → j < k → ¬ signatureAt mem code j) →
      findSignature mem code todo i = some k
  | 0, i, k, h1, h2, _, _ => by omega
  | todo + 1, i, k, h1, h2, hs, hf => by
    unfold findSignature
    by_cases hik : i = k
    · subst hik
      rw [if_pos ((memcmpIsZero_iff mem code i).2 hs)]
    · have hne : ¬ memcmpIsZero mem (code + (i : Int)) SHADER_BINARY_INFO_SIG sigLen = true :=
        fun h => hf i (Nat.le_refl i) (by omega) ((memcmpIsZero_iff mem code i).1 h)
      rw [if_neg hne]
      exact findSignature_first mem code todo (i + 1) k (by omega) (by omega) hs
        (fun j hj1 hj2 => hf j (by omega) hj2)

theorem findSignature_none (mem : Memory) (code : Int) :
    ∀ (todo i : Nat), (∀ j, i ≤ j → j < i + todo → ¬ signatureAt mem code j) →
      findSignature mem code todo i = none
  | 0, _, _ => rfl
  | todo + 1, i, hf => by
    unfold findSignature
    have hne : ¬ memcmpIsZero mem (code + (i : Int)) SHADER_BINARY_INFO_SIG sigLen = true :=
      fun h => hf i (Nat.le_refl i) (by omega) ((memcmpIsZero_iff mem code i).1 h)
    rw [if_neg hne]
    exact findSignature_none mem code todo (i + 1) (fun j hj1 hj2 => hf j (by omega) (by omega))

theorem copySlots_eq (mem : Memory) (tbl : Int) (sz : Nat) :
    ∀ (todo j : Nat) (acc : List InputUsageSlot),
      copySlots mem tbl sz todo j acc =
        acc ++ (List.range' j todo).map (fun (t : Nat) => readBytes mem (tbl + (t : Int) * (sz : Int)) sz)
  | 0, _, acc => by simp [copySlots]
  | todo + 1, j, acc => by
    rw [copySlots, copySlots_eq mem tbl sz todo (j + 1)]
    simp [List.range'_succ]

theorem toInt32_of_lt (n : Nat) (h : n < 2 ^ 31) : toInt32 n = (n : Int) := by
  unfold toInt32
  have h1 : n % 2 ^ 32 = n := Nat.mod_eq_of_lt (by omega)
  rw [h1, if_pos h]

theorem toUInt32_of_lt (n : Nat) (h : n < 2 ^ 31) : toUInt32 (n : Int) = n := by
  unfold toUInt32
  have h1 : ((n : Int) % 2 ^ 32) = (n : Int) := Int.emod_eq_of_lt (by omega) (by omega)
  rw [h1]; simp

theorem initBinaryInfo_found (L : ShaderBinaryLayout) (mem : Memory) (code : Int)
    (self : PsslProgramInfo) (k : Nat) (hcode : code ≠ 0)
    (hk : k < SHADER_BINARY_INFO_SEARCH_MAX) (hsig : signatureAt mem code k)
    (hfirst : ∀ j, j < k → ¬ signatureAt mem code j) :
    initBinaryInfo L mem code self =
      (true,
        { self with
          m_shaderBinaryInfo := readBytes mem (code + (k : Int)) L.headerSize
          m_inputUsageSlots :=
            self.m_inputUsageSlots ++
              (List.range (L.numInputUsageSlots (readBytes mem (code + (k : Int)) L.headerSize))).map
                (fun (t : Nat) => readBytes mem
                  (code + (k : Int)
                    - ((L.chunkUsageBaseOffsetInDW (readBytes mem (code + (k : Int)) L.headerSize) * 4 : Nat) : Int)
                    - ((L.numInputUsageSlots (readBytes mem (code + (k : Int)) L.headerSize) : Nat) : Int)
                        * (L.slotSize : Int)
                    + (t : Int) * (L.slotSize : Int)) L.slotSize) }) := by
  have hfind : findSignature mem code SHADER_BINARY_INFO_SEARCH_MAX 0 = some k :=
    findSignature_first mem code _ 0 k (Nat.zero_le k) (by omega) hsig (fun j _ hj => hfirst j hj)
  unfold initBinaryInfo
  rw [if_neg hcode, hfind]
  simp only []
  rw [toInt32_of_lt _ (L.numSlots_lt _), toUInt32_of_lt _ (L.numSlots_lt _), copySlots_eq,
    List.range_eq_range']

theorem hasFetchShaderLoop_iff (L : ShaderBinaryLayout) :
    ∀ slots : List InputUsageSlot,
      hasFetchShaderLoop L slots = true ↔
        ∃ slot ∈ slots, L.usageType slot = L.kShaderInputUsageSubPtrFetchShader
  | [] => by simp [hasFetchShaderLoop]
  | slot :: rest => by
    unfold hasFetchShaderLoop
    by_cases h : L.usageType slot = L.kShaderInputUsageSubPtrFetchShader
    · simp [h]
    · simp [h, hasFetchShaderLoop_iff L rest]

/-- C1: for a non-null `code` whose first occurrence of the signature below
`SHADER_BINARY_INFO_SEARCH_MAX` is at offset `k`, `initBinaryInfo` returns
`true`, the stored header is byte for byte the `sizeof(ShaderBinaryInfo)` bytes
at `code + k`, and `getCodeSizeBytes`, the `type` that `getShaderType` switches
on and `getInputUsageSlotCount` are the `length`, `type` and
`numInputUsageSlots` fields decoded from those bytes. -/
theorem initBinaryInfo_recovers_header (L : ShaderBinaryLayout) (mem : Memory) (code : Int)
    (self : PsslProgramInfo) (k : Nat) (hcode : code ≠ 0)
    (hk : k < SHADER_BINARY_INFO_SEARCH_MAX) (hsig : signatureAt mem code k)
    (hfirst : ∀ j, j < k → ¬ signatureAt mem code j) :
    (initBinaryInfo L mem code self).1 = true ∧
    (initBinaryInfo L mem code self).2.m_shaderBinaryInfo =
      readBytes mem (code + (k : Int)) L.headerSize ∧
    getCodeSizeBytes L (initBinaryInfo L mem code self).2 =
      L.length (readBytes mem (code + (k : Int)) L.headerSize) ∧
    L.type (initBinaryInfo L mem code self).2.m_shaderBinaryInfo =
      L.type (readBytes mem (code + (k : Int)) L.headerSize) ∧
    getShaderType L (initBinaryInfo L mem code self).2 =
      getShaderType L
        { self with m_shaderBinaryInfo := readBytes mem (code + (k : Int)) L.headerSize } ∧
    getInputUsageSlotCount L (initBinaryInfo L mem code self).2 =
      L.numInputUsageSlots (readBytes mem (code + (k : Int)) L.headerSize) := by
  rw [initBinaryInfo_found L mem code self k hcode hk hsig hfirst]
  exact ⟨rfl, rfl, rfl, rfl, rfl, rfl⟩

/-- Witness of C1: the sample blob at address 4096 has its first signature at
offset 12; the header read there has length 320, type 1 (a vertex shader) and
2 input usage slots. -/
theorem initBinaryInfo_recovers_header_witness :
    ((4096 : Int) ≠ 0 ∧ 12 < SHADER_BINARY_INFO_SEARCH_MAX ∧ signatureAt sampleMem 4096 12 ∧
      ∀ j, j < 12 → ¬ signatureAt sampleMem 4096 j) ∧
    (initBinaryInfo orbisLayout sampleMem 4096 ⟨4096, [], []⟩).1 = true ∧
    (initBinaryInfo orbisLayout sampleMem 4096 ⟨4096, [], []⟩).2.m_shaderBinaryInfo =
      sampleBlob.drop 12 ∧
    getCodeSizeBytes orbisLayout (initBinaryInfo orbisLayout sampleMem 4096 ⟨4096, [], []⟩).2
      = 320 ∧
    getShaderType orbisLayout (initBinaryInfo orbisLayout sampleMem 4096 ⟨4096, [], []⟩).2
      = PsslProgramType.VertexShader ∧
    getInputUsageSlotCount orbisLayout
      (initBinaryInfo orbisLayout sampleMem 4096 ⟨4096, [], []⟩).2 = 2 := by
  have hyp : (4096 : Int) ≠ 0 ∧ 12 < SHADER_BINARY_INFO_SEARCH_MAX ∧
      signatureAt sampleMem 4096 12 ∧ ∀ j, j < 12 → ¬ signatureAt sampleMem 4096 j := by
    decide
  have h := initBinaryInfo_recovers_header orbisLayout sampleMem 4096 ⟨4096, [], []⟩ 12
    hyp.1 hyp.2.1 hyp.2.2.1 hyp.2.2.2
  refine ⟨hyp, h.1, ?_, ?_, ?_, ?_⟩
  · rw [h.2.1]; decide
  · rw [h.2.2.1]; decide
  · rw [h.2.2.2.2.1]; decide
  · rw [h.2.2.2.2.2]; decide

/-- C2: when `code` is the null pointer, or the signature occurs at no offset
below `SHADER_BINARY_INFO_SEARCH_MAX`, `initBinaryInfo` returns `false` and the
object is left as it was: the header member keeps its prior bytes and the slot
sequence, empty before, is empty after.  So it is for the object under
construction, whose slot vector starts empty. -/
theorem initBinaryInfo_not_found (L : ShaderBinaryLayout) (mem : Memory) (code : Int)
    (self : PsslProgramInfo)
    (h : code = 0 ∨ ∀ i, i < SHADER_BINARY_INFO_SEARCH_MAX → ¬ signatureAt mem code i) :
    initBinaryInfo L mem code self = (false, self) ∧
    (initBinaryInfo L mem code self).2.m_shaderBinaryInfo = self.m_shaderBinaryInfo ∧
    (self.m_inputUsageSlots = [] →
      (initBinaryInfo L mem code self).2.m_inputUsageSlots = []) ∧
    (∀ junk, (PsslProgramInfo.construct L mem code junk).1 = false ∧
      (PsslProgramInfo.construct L mem code junk).2.m_shaderBinaryInfo = junk ∧
      (PsslProgramInfo.construct L mem code junk).2.m_inputUsageSlots = []) := by
  have key : ∀ s : PsslProgramInfo, initBinaryInfo L mem code s = (false, s) := by
    intro s
    unfold initBinaryInfo
    by_cases hc : code = 0
    · rw [if_pos hc]
    · rw [if_neg hc]
      have hno : ∀ i, i < SHADER_BINARY_INFO_SEARCH_MAX → ¬ signatureAt mem code i :=
        h.resolve_left hc
      rw [findSignature_none mem code _ 0 (fun j _ hj => hno j (by omega))]
  refine ⟨key self, by rw [key], fun he => by rw [key]; exact he, fun junk => ?_⟩
  unfold PsslProgramInfo.construct
  rw [key]
  exact ⟨rfl, rfl, rfl⟩

/-- Witness of C2: an all-zero memory holds no signature; from address 4096 the
call fails and the object keeps the header bytes `[1, 2, 3]` it had. -/
theorem initBinaryInfo_not_found_witness :
    initBinaryInfo orbisLayout zeroMem 4096 ⟨4096, [1, 2, 3], []⟩ =
      (false, ⟨4096, [1, 2, 3], []⟩) :=
  (initBinaryInfo_not_found orbisLayout zeroMem 4096 ⟨4096, [1, 2, 3], []⟩
    (Or.inr (fun i _ h => by
      have h0 := congrArg (fun l => l.getD 0 0) h
      simp [readBytes, zeroMem] at h0))).1

/-- C3: after a successful `initBinaryInfo` on an object whose slot vector was
empty, with the signature first found at offset `k` and a header declaring
`n = numInputUsageSlots` and `c = chunkUsageBaseOffsetInDW`, the slot sequence
has exactly `n` elements, element `j` is the record stored at byte offset
`k - 4*c - (n - j) * sizeof(InputUsageSlot)` of the buffer, and
`getInputUsageSlotCount()` is the length of `getInputUsageSlots()`. -/
theorem initBinaryInfo_slot_table (L : ShaderBinaryLayout) (mem : Memory) (code : Int)
    (self : PsslProgramInfo) (k : Nat) (hcode : code ≠ 0)
    (hk : k < SHADER_BINARY_INFO_SEARCH_MAX) (hsig : signatureAt mem code k)
    (hfirst : ∀ j, j < k → ¬ signatureAt mem code j)
    (hempty : self.m_inputUsageSlots = []) :
    (getInputUsageSlots (initBinaryInfo L mem code self).2).length =
      L.numInputUsageSlots (readBytes mem (code + (k : Int)) L.headerSize) ∧
    (∀ j, j < L.numInputUsageSlots (readBytes mem (code + (k : Int)) L.headerSize) →
      (getInputUsageSlots (initBinaryInfo L mem code self).2)[j]? =
        some (readBytes mem
          (code + ((k : Int)
            - 4 * (L.chunkUsageBaseOffsetInDW (readBytes mem (code + (k : Int)) L.headerSize) : Int)
            - ((L.numInputUsageSlots (readBytes mem (code + (k : Int)) L.headerSize) : Int)
                - (j : Int)) * (L.slotSize : Int)))
          L.slotSize)) ∧
    getInputUsageSlotCount L (initBinaryInfo L mem code self).2 =
      (getInputUsageSlots (initBinaryInfo L mem code self).2).length := by
  rw [initBinaryInfo_found L mem code self k hcode hk hsig hfirst]
  simp only [getInputUsageSlots, getInputUsageSlotCount, hempty, List.nil_append,
    List.length_map, List.length_range]
  refine ⟨trivial, fun j hj => ?_, trivial⟩
  rw [List.getElem?_map, List.getElem?_range hj]
  simp only [Option.map_some']
  congr 2
  push_cast
  ring

/-- Witness of C3: in the sample blob (`k = 12`, `c = 1`, `n = 2`, 4-byte
slots) the two slots are the records at byte offsets 0 and 4. -/
theorem initBinaryInfo_slot_table_witness :
    signatureAt sampleMem 4096 12 ∧
    getInputUsageSlots (initBinaryInfo orbisLayout sampleMem 4096 ⟨4096, [], []⟩).2 =
      [[0, 0, 4, 0], [18, 0, 8, 0]] := by
  have hyp : (4096 : Int) ≠ 0 ∧ 12 < SHADER_BINARY_INFO_SEARCH_MAX ∧
      signatureAt sampleMem 4096 12 ∧ ∀ j, j < 12 → ¬ signatureAt sampleMem 4096 j := by
    decide
  have h := initBinaryInfo_slot_table orbisLayout sampleMem 4096 ⟨4096, [], []⟩ 12
    hyp.1 hyp.2.1 hyp.2.2.1 hyp.2.2.2 rfl
  refine ⟨hyp.2.2.1, ?_⟩
  have hn : orbisLayout.numInputUsageSlots (readBytes sampleMem (4096 + ((12 : Nat) : Int))
      orbisLayout.headerSize) = 2 := by decide
  have hlen := h.1
  rw [hn] at hlen
  have h0 := h.2.1 0 (by rw [hn]; decide)
  have h1 := h.2.1 1 (by rw [hn]; decide)
  apply List.ext_getElem?
  intro i
  match i with
  | 0 => rw [h0]; decide
  | 1 => rw [h1]; decide
  | i + 2 =>
    rw [List.getElem?_eq_none (by omega)]
    simp

/-- C4: `hasFetchShader()` is `true` if and only if some slot of the sequence
has `usageType == kShaderInputUsageSubPtrFetchShader`; it is `false` for the
empty sequence. -/
theorem hasFetchShader_iff (L : ShaderBinaryLayout) (self : PsslProgramInfo) :
    (hasFetchShader L self = true ↔
      ∃ slot ∈ self.m_inputUsageSlots,
        L.usageType slot = L.kShaderInputUsageSubPtrFetchShader) ∧
    hasFetchShader L { self with m_inputUsageSlots := [] } = false :=
  ⟨hasFetchShaderLoop_iff L self.m_inputUsageSlots, rfl⟩

end pssl

namespace gve

/-! ## Theorems about `GveFrameBuffer.cpp` -/

/-- The color loop of `computeRenderSize`, seen through one component `p` of
the size: the result is below the start value and below every bound color
view, and it is one of them. -/
theorem computeRenderSizeColors_proj (p : GveFramebufferSize → Nat)
    (hp : ∀ m s : GveFramebufferSize,
      p ⟨min m.width s.width, min m.height s.height, min m.layers s.layers⟩ = min (p m) (p s)) :
    ∀ (color : List GveAttachment) (minSize : GveFramebufferSize),
      p (computeRenderSizeColors color minSize) ≤ p minSize ∧
      (∀ a ∈ color, ∀ view, a.view = some view →
        p (computeRenderSizeColors color minSize) ≤ p (getRenderTargetSize view)) ∧
      (p (computeRenderSizeColors color minSize) = p minSize ∨
        ∃ a ∈ color, ∃ view, a.view = some view ∧
          p (computeRenderSizeColors color minSize) = p (getRenderTargetSize view))
  | [], minSize => by simp [computeRenderSizeColors]
  | a :: rest, minSize => by
    cases hv : a.view with
    | none =>
      have ih := computeRenderSizeColors_proj p hp rest minSize
      simp only [computeRenderSizeColors, hv]
      refine ⟨ih.1, ?_, ?_⟩
      · intro b hb view hbv
        rcases List.mem_cons.1 hb with rfl | hb
        · rw [hv] at hbv; cases hbv
        · exact ih.2.1 b hb view hbv
      · rcases ih.2.2 with h | ⟨b, hb, view, hbv, h⟩
        · exact Or.inl h
        · exact Or.inr ⟨b, List.mem_cons_of_mem _ hb, view, hbv, h⟩
    | some v =>
      have ih := computeRenderSizeColors_proj p hp rest
        ⟨min minSize.width (getRenderTargetSize v).width,
          min minSize.height (getRenderTargetSize v).height,
          min minSize.layers (getRenderTargetSize v).layers⟩
      rw [hp] at ih
      simp only [computeRenderSizeColors, hv]
      refine ⟨le_trans ih.1 (min_le_left _ _), ?_, ?_⟩
      · intro b hb view hbv
        rcases List.mem_cons.1 hb with rfl | hb
        · rw [hv] at hbv
          cases hbv
          exact le_trans ih.1 (min_le_right _ _)
        · exact ih.2.1 b hb view hbv
      · rcases ih.2.2 with h | ⟨b, hb, view, hbv, h⟩
        · rcases min_choice (p minSize) (p (getRenderTargetSize v)) with hm | hm
          · exact Or.inl (h.trans hm)
          · exact Or.inr ⟨a, List.mem_cons_self _ _, v, hv, h.trans hm⟩
        · exact Or.inr ⟨b, List.mem_cons_of_mem _ hb, view, hbv, h⟩

/-- One component `p` of `computeRenderSize` is the minimum of that component
of the default size and of the sizes of the bound views. -/
theorem computeRenderSize_proj (p : GveFramebufferSize → Nat)
    (hp : ∀ m s : GveFramebufferSize,
      p ⟨min m.width s.width, min m.height s.height, min m.layers s.layers⟩ = min (p m) (p s))
    (renderTargets : GveRenderTargets) (defaultSize : GveFramebufferSize) :
    IsMinOver renderTargets (fun view => p (getRenderTargetSize view)) (p defaultSize)
      (p (computeRenderSize renderTargets defaultSize)) := by
  unfold computeRenderSize IsMinOver isBound
  cases hd : renderTargets.depth.view with
  | none =>
    have h := computeRenderSizeColors_proj p hp renderTargets.color defaultSize
    simp only []
    refine ⟨h.1, ?_, ?_⟩
    · rintro view (hdv | ⟨a, ha, hav⟩)
      · cases hdv
      · exact h.2.1 a ha view hav
    · rcases h.2.2 with h1 | ⟨a, ha, view, hav, h1⟩
      · exact Or.inl h1
      · exact Or.inr ⟨view, Or.inr ⟨a, ha, hav⟩, h1⟩
  | some v =>
    have h := computeRenderSizeColors_proj p hp renderTargets.color
      ⟨min defaultSize.width (getRenderTargetSize v).width,
        min defaultSize.height (getRenderTargetSize v).height,
        min defaultSize.layers (getRenderTargetSize v).layers⟩
    rw [hp] at h
    simp only []
    refine ⟨le_trans h.1 (min_le_left _ _), ?_, ?_⟩
    · rintro view (hdv | ⟨a, ha, hav⟩)
      · cases hdv
        exact le_trans h.1 (min_le_right _ _)
      · exact h.2.1 a ha view hav
    · rcases h.2.2 with h1 | ⟨a, ha, view, hav, h1⟩
      · rcases min_choice (p defaultSize) (p (getRenderTargetSize v)) with hm | hm
        · exact Or.inl (h1.trans hm)
        · exact Or.inr ⟨v, Or.inl rfl, h1.trans hm⟩
      · exact Or.inr ⟨view, Or.inr ⟨a, ha, hav⟩, h1⟩

/-- C5: for every `RenderTargets` aggregate and default extent `d`, the width,
height and layers of `computeRenderSize(d)` are each the minimum of the
component of `d` and of the mip-level-0 width, mip-level-0 height and
`numLayers` of every non-null color view and of the depth view if non-null.
With `d = (1920, 1080, 1)` and a single color attachment of extent
`(960, 540, 1)` the result is `(960, 540, 1)`; with no view bound it is `d`. -/
theorem computeRenderSize_pointwise_min (renderTargets : GveRenderTargets)
    (d : GveFramebufferSize) :
    IsMinOver renderTargets (fun view => (view.mipLevelExtent 0).width) d.width
      (computeRenderSize renderTargets d).width ∧
    IsMinOver renderTargets (fun view => (view.mipLevelExtent 0).height) d.height
      (computeRenderSize renderTargets d).height ∧
    IsMinOver renderTargets (fun view => view.info.numLayers) d.layers
      (computeRenderSize renderTargets d).layers ∧
    computeRenderSize oneColorTarget ⟨1920, 1080, 1⟩ = ⟨960, 540, 1⟩ ∧
    computeRenderSize noTargets ⟨1920, 1080, 1⟩ = ⟨1920, 1080, 1⟩ ∧
    ((∀ view, ¬ isBound renderTargets view) → computeRenderSize renderTargets d = d) := by
  have hw := computeRenderSize_proj (fun s => s.width) (fun _ _ => rfl) renderTargets d
  have hh := computeRenderSize_proj (fun s => s.height) (fun _ _ => rfl) renderTargets d
  have hl := computeRenderSize_proj (fun s => s.layers) (fun _ _ => rfl) renderTargets d
  refine ⟨hw, hh, hl, by decide, by decide, fun hnone => ?_⟩
  have e1 : (computeRenderSize renderTargets d).width = d.width :=
    hw.2.2.resolve_right (fun ⟨view, hb, _⟩ => hnone view hb)
  have e2 : (computeRenderSize renderTargets d).height = d.height :=
    hh.2.2.resolve_right (fun ⟨view, hb, _⟩ => hnone view hb)
  have e3 : (computeRenderSize renderTargets d).layers = d.layers :=
    hl.2.2.resolve_right (fun ⟨view, hb, _⟩ => hnone view hb)
  cases hr : computeRenderSize renderTargets d with
  | mk w h l =>
    rw [hr] at e1 e2 e3
    cases d
    simp only at e1 e2 e3
    subst e1 e2 e3
    rfl

theorem writeList_nil {α : Type} (arr : Nat → Option α) (start : Nat) :
    writeList arr start [] = arr := by
  funext j
  simp only [writeList, List.length_nil, Nat.add_zero]
  rw [if_neg (by omega)]

theorem writeList_cons {α : Type} (arr : Nat → Option α) (start : Nat) (x : α) (l : List α) :
    writeList (Function.update arr start (some x)) (start + 1) l = writeList arr start (x :: l) := by
  funext j
  simp only [writeList, List.length_cons]
  by_cases h1 : start + 1 ≤ j ∧ j < start + 1 + l.length
  · rw [if_pos h1, if_pos (by omega)]
    obtain ⟨m, rfl⟩ : ∃ m, j = start + 1 + m := ⟨j - (start + 1), by omega⟩
    have e1 : start + 1 + m - (start + 1) = m := by omega
    have e2 : start + 1 + m - start = m + 1 := by omega
    rw [e1, e2, List.getElem?_cons_succ]
  · rw [if_neg h1]
    by_cases h2 : j = start
    · subst h2
      rw [if_pos (by omega)]
      simp
    · rw [if_neg (by omega), Function.update_noteq h2]

theorem writeList_snoc {α : Type} (arr : Nat → Option α) (start : Nat) (l : List α) (x : α) :
    Function.update (writeList arr start l) (start + l.length) (some x) =
      writeList arr start (l ++ [x]) := by
  funext j
  simp only [writeList, List.length_append, List.length_singleton]
  by_cases h2 : j = start + l.length
  · subst h2
    rw [Function.update_same, if_pos (by omega)]
    have e : start + l.length - start = l.length := by omega
    rw [e]
    simp
  · rw [Function.update_noteq h2]
    simp only [writeList]
    by_cases h1 : start ≤ j ∧ j < start + l.length
    · rw [if_pos h1, if_pos (by omega), List.getElem?_append_left (by omega)]
    · rw [if_neg h1, if_neg (by omega)]

theorem boundColors_nil (i : Nat) : boundColors [] i = [] := rfl

theorem boundColors_cons_none (a : GveAttachment) (rest : List GveAttachment) (i : Nat)
    (h : a.view = none) : boundColors (a :: rest) i = boundColors rest (i + 1) := by
  simp [boundColors, h]

theorem boundColors_cons_some (a : GveAttachment) (rest : List GveAttachment) (i : Nat)
    (view : GveImageView) (h : a.view = some view) :
    boundColors (a :: rest) i = (AttachmentRef.color i, view) :: boundColors rest (i + 1) := by
  simp [boundColors, h]

/-- The color loop of `createFrameBuffer` writes the handles and the slot
pointers of the non-null color slots, in order, from index `m_attachmentCount`
on, and advances `m_attachmentCount` by their number. -/
theorem packColors_eq :
    ∀ (color : List GveAttachment) (i : Nat) (views : Nat → Option Nat) (self : GveFrameBuffer),
      packColors color i (views, self) =
        (writeList views self.m_attachmentCount ((boundColors color i).map fun p => p.2.handle),
          { self with
            m_attachments :=
              writeList self.m_attachments self.m_attachmentCount
                ((boundColors color i).map Prod.fst)
            m_attachmentCount := self.m_attachmentCount + (boundColors color i).length })
  | [], i, views, self => by
    simp [packColors, boundColors_nil, writeList_nil]
  | a :: rest, i, views, self => by
    cases hv : a.view with
    | none =>
      rw [boundColors_cons_none a rest i hv]
      simp only [packColors, hv]
      exact packColors_eq rest (i + 1) views self
    | some v =>
      rw [boundColors_cons_some a rest i v hv]
      simp only [packColors, hv]
      rw [packColors_eq rest (i + 1)]
      simp only [List.map_cons, List.length_cons, writeList_cons]
      congr 2
      omega

theorem boundColors_length_le (color : List GveAttachment) (i : Nat) :
    (boundColors color i).length ≤ color.length := by
  unfold boundColors
  exact le_trans (List.length_filterMap_le _ _) (le_of_eq List.enumFrom_length)

theorem boundColors_deref (renderTargets : GveRenderTargets) (ref : AttachmentRef)
    (view : GveImageView) (h : (ref, view) ∈ boundColors renderTargets.color 0) :
    ∃ a, ref.deref renderTargets = some a ∧ a.view = some view := by
  unfold boundColors at h
  rcases List.mem_filterMap.1 h with ⟨⟨n, a⟩, hmem, hmap⟩
  have hget : renderTargets.color[n]? = some a := by
    have := List.mk_mem_enumFrom_iff_le_and_getElem?_sub.1 hmem
    simpa using this.2
  cases hv : a.view with
  | none => simp [hv] at hmap
  | some v =>
    simp only [hv, Option.map_some', Option.some.injEq, Prod.mk.injEq] at hmap
    obtain ⟨rfl, rfl⟩ := hmap
    exact ⟨a, hget, hv⟩

theorem boundSlots_deref (renderTargets : GveRenderTargets) (ref : AttachmentRef)
    (view : GveImageView) (h : (ref, view) ∈ boundSlots renderTargets) :
    ∃ a, ref.deref renderTargets = some a ∧ a.view = some view := by
  unfold boundSlots at h
  rcases List.mem_append.1 h with h | h
  · exact boundColors_deref renderTargets ref view h
  · cases hd : renderTargets.depth.view with
    | none => simp [hd] at h
    | some v =>
      simp only [hd, List.mem_singleton, Prod.mk.injEq] at h
      obtain ⟨rfl, rfl⟩ := h
      exact ⟨renderTargets.depth, rfl, hd⟩

theorem boundSlots_length_le (renderTargets : GveRenderTargets) :
    (boundSlots renderTargets).length ≤ renderTargets.color.length + 1 := by
  unfold boundSlots
  have := boundColors_length_le renderTargets.color 0
  cases renderTargets.depth.view <;> simp <;> omega

/-- The two packing steps of `createFrameBuffer` on an object whose
`m_attachmentCount` is 0. -/
theorem pack_eq (renderTargets : GveRenderTargets) (self : GveFrameBuffer)
    (hfresh : self.m_attachmentCount = 0) :
    packDepth renderTargets.depth (packColors renderTargets.color 0 (fun _ => none, self)) =
      (writeList (fun _ => none) 0 ((boundSlots renderTargets).map fun p => p.2.handle),
        { self with
          m_attachments :=
            writeList self.m_attachments 0 ((boundSlots renderTargets).map Prod.fst)
          m_attachmentCount := (boundSlots renderTargets).length }) := by
  rw [packColors_eq, hfresh]
  unfold boundSlots packDepth
  cases hd : renderTargets.depth.view with
  | none => simp
  | some v =>
    simp only [Nat.zero_add, List.map_append, List.map_cons, List.map_nil, List.length_append,
      List.length_cons, List.length_nil]
    have e1 := writeList_snoc (fun _ => (none : Option Nat)) 0
      ((boundColors renderTargets.color 0).map fun p => p.2.handle) v.handle
    have e2 := writeList_snoc self.m_attachments 0
      ((boundColors renderTargets.color 0).map Prod.fst) AttachmentRef.depth
    simp only [List.length_map, Nat.zero_add] at e1 e2
    rw [e1, e2]

/-- C6: `createFrameBuffer` with a non-null render pass on an object whose
`m_attachmentCount` is 0 (and whose member `m_renderPass` is set, as the
constructor leaves it) makes one native call; the attachment views it hands
over are the views of the non-null color slots in increasing slot index
followed by the depth view if non-null; `m_attachmentCount` is the number of
non-null entries, at most `MaxNumRenderTargets + 1`; and for every packed index
`j < m_attachmentCount`, `m_attachments[j]` points to the slot of
`renderTargets` whose view is at packed position `j`. -/
theorem createFrameBuffer_packs_attachments
    (vkCreateFramebuffer : VkFramebufferCreateInfo → Option Nat) (self : GveFrameBuffer)
    (renderTargets : GveRenderTargets) (renderPass m_renderPass : GveRenderPass)
    (defaultSize : GveFramebufferSize) (hfresh : self.m_attachmentCount = 0)
    (hrp : self.m_renderPass = some m_renderPass) :
    ∃ r info,
      createFrameBuffer vkCreateFramebuffer self renderTargets (some renderPass) defaultSize
        = some r ∧
      r.nativeCalls = [info] ∧
      info.attachments = (boundSlots renderTargets).map (fun p => some p.2.handle) ∧
      info.attachmentCount = r.self.m_attachmentCount ∧
      r.self.m_attachmentCount = (boundSlots renderTargets).length ∧
      r.self.m_attachmentCount ≤ renderTargets.color.length + 1 ∧
      ∀ j, j < r.self.m_attachmentCount →
        ∃ ref view a,
          (boundSlots renderTargets)[j]? = some (ref, view) ∧
          r.self.m_attachments j = some ref ∧
          info.pAttachments j = some view.handle ∧
          ref.deref renderTargets = some a ∧ a.view = some view := by
  have hpack := pack_eq renderTargets self hfresh
  have hviews : (List.range (boundSlots renderTargets).length).map
      (writeList (fun _ => (none : Option Nat)) 0
        ((boundSlots renderTargets).map fun p => p.2.handle)) =
      (boundSlots renderTargets).map (fun p => some p.2.handle) := by
    apply List.ext_getElem?
    intro j
    by_cases hj : j < (boundSlots renderTargets).length
    · rw [List.getElem?_map, List.getElem?_range hj]
      simp [writeList, hj]
    · rw [List.getElem?_eq_none (by simpa using hj), List.getElem?_eq_none (by simpa using hj)]
  have hslots : ∀ j, j < (boundSlots renderTargets).length →
      ∃ ref view a,
        (boundSlots renderTargets)[j]? = some (ref, view) ∧
        writeList self.m_attachments 0 ((boundSlots renderTargets).map Prod.fst) j = some ref ∧
        writeList (fun _ => (none : Option Nat)) 0
          ((boundSlots renderTargets).map fun p => p.2.handle) j = some view.handle ∧
        ref.deref renderTargets = some a ∧ a.view = some view := by
    intro j hj
    have hget : (boundSlots renderTargets)[j]? = some (boundSlots renderTargets)[j] :=
      List.getElem?_eq_getElem hj
    obtain ⟨a, ha1, ha2⟩ := boundSlots_deref renderTargets (boundSlots renderTargets)[j].1
      (boundSlots renderTargets)[j].2 (List.getElem_mem hj)
    refine ⟨(boundSlots renderTargets)[j].1, (boundSlots renderTargets)[j].2, a, hget, ?_, ?_,
      ha1, ha2⟩
    · simp [writeList, hj]
    · simp [writeList, hj]
  unfold createFrameBuffer
  simp only [hpack, hrp, Option.bind]
  split
  · exact ⟨_, _, rfl, rfl, hviews, rfl, rfl, boundSlots_length_le renderTargets, hslots⟩
  · exact ⟨_, _, rfl, rfl, hviews, rfl, rfl, boundSlots_length_le renderTargets, hslots⟩

/-- Witness of C6: color views in slots 1 and 3 of 4 and a depth view are
packed as three attachments, handles 11, 13, 17, pointing back to color slot 1,
color slot 3 and the depth slot. -/
theorem createFrameBuffer_packs_attachments_witness :
    ∃ r info,
      GveFrameBuffer.construct (fun _ => some 5) sparseTargets (some ⟨3⟩) ⟨1920, 1080, 1⟩
        = some r ∧
      r.nativeCalls = [info] ∧
      info.attachments = [some 11, some 13, some 17] ∧
      r.self.m_attachmentCount = 3 ∧
      (r.self.m_attachments 0 = some (AttachmentRef.color 1) ∧
        r.self.m_attachments 1 = some (AttachmentRef.color 3) ∧
        r.self.m_attachments 2 = some AttachmentRef.depth) := by
  obtain ⟨r, info, h1, h2, h3, _, h5, _, h7⟩ :=
    createFrameBuffer_packs_attachments (fun _ => some 5)
      { m_renderTargets := sparseTargets, m_renderPass := some ⟨3⟩,
        m_attachments := fun _ => none, m_attachmentCount := 0, m_frameBuffer := 0 }
      sparseTargets ⟨3⟩ ⟨3⟩ ⟨1920, 1080, 1⟩ rfl rfl
  have hlen : (boundSlots sparseTargets).length = 3 := by decide
  have hrefs : (boundSlots sparseTargets).map Prod.fst =
      [AttachmentRef.color 1, AttachmentRef.color 3, AttachmentRef.depth] := by decide
  rw [hlen] at h5
  have key : ∀ j, j < 3 → (r.self.m_attachments j =
      ([AttachmentRef.color 1, AttachmentRef.color 3, AttachmentRef.depth] : List _)[j]?) := by
    intro j hj
    obtain ⟨ref, view, a, g1, g2, _⟩ := h7 j (by omega)
    rw [g2, ← hrefs, List.getElem?_map, g1]
    rfl
  refine ⟨r, info, h1, h2, ?_, h5, key 0 (by decide), key 1 (by decide), key 2 (by decide)⟩
  rw [h3]
  decide

/-- C9: `createFrameBuffer` with a null render pass returns `false`, makes no
native call, and leaves the object, so `m_attachmentCount`, `m_attachments`
and `m_frameBuffer`, as it was. -/
theorem createFrameBuffer_null_renderPass
    (vkCreateFramebuffer : VkFramebufferCreateInfo → Option Nat) (self : GveFrameBuffer)
    (renderTargets : GveRenderTargets) (defaultSize : GveFramebufferSize) :
    ∃ r,
      createFrameBuffer vkCreateFramebuffer self renderTargets none defaultSize = some r ∧
      r.ret = false ∧ r.nativeCalls = [] ∧
      r.self.m_attachmentCount = self.m_attachmentCount ∧
      r.self.m_attachments = self.m_attachments ∧
      r.self.m_frameBuffer = self.m_frameBuffer :=
  ⟨_, rfl, rfl, rfl, rfl, rfl, rfl⟩

theorem getRenderPassFormatColors_bound :
    ∀ (color : List GveAttachment) (i : Nat) (format : GveRenderPassFormat),
      (∀ a ∈ color, a.view ≠ none) → getRenderPassFormatColors color i format = some format
  | [], _, _, _ => rfl
  | a :: rest, i, format, h => by
    have ha : a.view.isSome = true := by
      cases hv : a.view with
      | none => exact absurd hv (h a (List.mem_cons_self _ _))
      | some v => rfl
    rw [getRenderPassFormatColors, if_pos ha]
    exact getRenderPassFormatColors_bound rest (i + 1) format
      (fun b hb => h b (List.mem_cons_of_mem _ hb))

theorem getRenderPassFormatColors_null :
    ∀ (color : List GveAttachment) (i : Nat) (format : GveRenderPassFormat),
      (∃ a ∈ color, a.view = none) → getRenderPassFormatColors color i format = none
  | [], _, _, h => by
    obtain ⟨a, ha, _⟩ := h
    cases ha
  | a :: rest, i, format, h => by
    cases hv : a.view with
    | none => simp [getRenderPassFormatColors, hv]
    | some v =>
      have hrest : ∃ b ∈ rest, b.view = none := by
        obtain ⟨b, hb, hbv⟩ := h
        rcases List.mem_cons.1 hb with rfl | hb
        · rw [hv] at hbv; cases hbv
        · exact ⟨b, hb, hbv⟩
      simp only [getRenderPassFormatColors, hv, Option.isSome_some, if_true]
      exact getRenderPassFormatColors_null rest (i + 1) format hrest

/-- C10: in `getRenderPassFormat` the color fields are written only for empty
slots.  The call has a value, no null view being dereferenced, exactly when
every color slot is non-null; whenever it has a value every `color[i]` of the
returned format keeps its zero `format` and `layout`; and with every color slot
non-null the result is built from the depth slot alone, so no color view is
read. -/
theorem getRenderPassFormat_color_only_for_empty (renderTargets : GveRenderTargets) :
    ((getRenderPassFormat renderTargets).isSome = true ↔
      ∀ a ∈ renderTargets.color, a.view ≠ none) ∧
    (∀ format, getRenderPassFormat renderTargets = some format →
      ∀ i, (format.color i).format = 0 ∧ (format.color i).layout = 0) ∧
    ((∀ a ∈ renderTargets.color, a.view ≠ none) →
      getRenderPassFormat renderTargets =
        some (match renderTargets.depth.view with
          | some view =>
            { sampleCount := view.imageInfo.sampleCount
              color := fun _ => ⟨0, 0⟩
              depth := ⟨view.info.format, renderTargets.depth.layout⟩ }
          | none => GveRenderPassFormat.zero)) ∧
    (getRenderPassFormat fullTargets).isSome = true ∧
    (getRenderPassFormat sparseTargets).isSome = false := by
  have hall : (∀ a ∈ renderTargets.color, a.view ≠ none) →
      getRenderPassFormat renderTargets =
        some (match renderTargets.depth.view with
          | some view =>
            { sampleCount := view.imageInfo.sampleCount
              color := fun _ => ⟨0, 0⟩
              depth := ⟨view.info.format, renderTargets.depth.layout⟩ }
          | none => GveRenderPassFormat.zero) := by
    intro h
    unfold getRenderPassFormat
    rw [getRenderPassFormatColors_bound renderTargets.color 0 _ h]
    cases renderTargets.depth.view <;> rfl
  have hnull : ¬ (∀ a ∈ renderTargets.color, a.view ≠ none) →
      getRenderPassFormat renderTargets = none := by
    intro h
    have h2 : ∃ a ∈ renderTargets.color, a.view = none := by
      by_contra hc
      exact h (fun a ha hv => hc ⟨a, ha, hv⟩)
    unfold getRenderPassFormat
    rw [getRenderPassFormatColors_null renderTargets.color 0 _ h2]
    rfl
  refine ⟨⟨fun hs => ?_, fun h => by rw [hall h]; rfl⟩, fun format hf i => ?_, hall,
    by decide, by decide⟩
  · by_contra hc
    rw [hnull hc] at hs
    cases hs
  · by_cases hc : ∀ a ∈ renderTargets.color, a.view ≠ none
    · rw [hall hc] at hf
      cases hd : renderTargets.depth.view with
      | none =>
        rw [hd] at hf
        cases hf
        exact ⟨rfl, rfl⟩
      | some v =>
        rw [hd] at hf
        cases hf
        exact ⟨rfl, rfl⟩
    · rw [hnull hc] at hf
      cases hf

end gve

namespace sce

/-! ## Theorems about `SceGnmDriver.cpp` -/

/-- One call of `submitCommandBufferAndPresent` at a frame index below
`MAX_FRAMES_IN_FLIGHT`: the five calls it makes, in order, and the new frame
index. -/
theorem submitCommandBufferAndPresent_ok (env : GpuEnv) (self : SceGnmDriver) (cmdBuffer : Nat)
    (h : self.m_currentFrame < MAX_FRAMES_IN_FLIGHT) :
    submitCommandBufferAndPresent env self cmdBuffer =
      .ok { self with
            m_currentFrame := (self.m_currentFrame + 1) % MAX_FRAMES_IN_FLIGHT
            calls := self.calls ++
              [GpuCall.vkWaitForFences self.m_currentFrame,
               GpuCall.acquireNextImage self.m_currentFrame,
               GpuCall.vkResetFences self.m_currentFrame,
               GpuCall.vkQueueSubmit self.m_currentFrame cmdBuffer self.m_currentFrame
                 self.m_currentFrame,
               GpuCall.vkQueuePresentKHR self.m_currentFrame
                 (env.acquireNextImage (self.calls ++ [GpuCall.vkWaitForFences self.m_currentFrame])
                   self.m_currentFrame)] } := by
  unfold submitCommandBufferAndPresent
  rw [if_pos h]
  simp only [List.append_assoc, List.singleton_append, List.cons_append, List.nil_append]

/-- C8: from a state with `m_currentFrame < MAX_FRAMES_IN_FLIGHT` (2), two
consecutive calls of `submitCommandBufferAndPresent` both return, bring
`m_currentFrame` back to its initial value, keep it below 2 in between, each
make in order the wait on fence `f`, the image acquisition, the reset of fence
`f`, the queue submission signalling fence `f` and the present, for `f` the
frame index at the call, and together wait on each fence 0 and 1 exactly
once. -/
theorem submitCommandBufferAndPresent_cycle (env : GpuEnv) (self : SceGnmDriver)
    (cmdBuffer1 cmdBuffer2 : Nat) (h : self.m_currentFrame < MAX_FRAMES_IN_FLIGHT) :
    ∃ s1 s2 image1 image2,
      submitCommandBufferAndPresent env self cmdBuffer1 = .ok s1 ∧
      submitCommandBufferAndPresent env s1 cmdBuffer2 = .ok s2 ∧
      s2.m_currentFrame = self.m_currentFrame ∧
      s1.m_currentFrame < MAX_FRAMES_IN_FLIGHT ∧
      s2.m_currentFrame < MAX_FRAMES_IN_FLIGHT ∧
      s1.m_currentFrame = (self.m_currentFrame + 1) % MAX_FRAMES_IN_FLIGHT ∧
      s1.calls = self.calls ++
        [GpuCall.vkWaitForFences self.m_currentFrame,
         GpuCall.acquireNextImage self.m_currentFrame,
         GpuCall.vkResetFences self.m_currentFrame,
         GpuCall.vkQueueSubmit self.m_currentFrame cmdBuffer1 self.m_currentFrame
           self.m_currentFrame,
         GpuCall.vkQueuePresentKHR self.m_currentFrame image1] ∧
      s2.calls = s1.calls ++
        [GpuCall.vkWaitForFences s1.m_currentFrame,
         GpuCall.acquireNextImage s1.m_currentFrame,
         GpuCall.vkResetFences s1.m_currentFrame,
         GpuCall.vkQueueSubmit s1.m_currentFrame cmdBuffer2 s1.m_currentFrame s1.m_currentFrame,
         GpuCall.vkQueuePresentKHR s1.m_currentFrame image2] ∧
      ∀ f, f < MAX_FRAMES_IN_FLIGHT →
        ((s2.calls.drop self.calls.length).count (GpuCall.vkWaitForFences f)) = 1 := by
  have h1 : (self.m_currentFrame + 1) % MAX_FRAMES_IN_FLIGHT < MAX_FRAMES_IN_FLIGHT :=
    Nat.mod_lt _ (by decide)
  have e1 := submitCommandBufferAndPresent_ok env self cmdBuffer1 h
  have e2 := submitCommandBufferAndPresent_ok env
    { self with
      m_currentFrame := (self.m_currentFrame + 1) % MAX_FRAMES_IN_FLIGHT
      calls := self.calls ++
        [GpuCall.vkWaitForFences self.m_currentFrame,
         GpuCall.acquireNextImage self.m_currentFrame,
         GpuCall.vkResetFences self.m_currentFrame,
         GpuCall.vkQueueSubmit self.m_currentFrame cmdBuffer1 self.m_currentFrame
           self.m_currentFrame,
         GpuCall.vkQueuePresentKHR self.m_currentFrame
           (env.acquireNextImage (self.calls ++ [GpuCall.vkWaitForFences self.m_currentFrame])
             self.m_currentFrame)] } cmdBuffer2 h1
  refine ⟨_, _, _, _, e1, e2, ?_, h1, Nat.mod_lt _ (by decide), rfl, rfl, rfl, ?_⟩
  · show (((self.m_currentFrame + 1) % MAX_FRAMES_IN_FLIGHT) + 1) % MAX_FRAMES_IN_FLIGHT
      = self.m_currentFrame
    unfold MAX_FRAMES_IN_FLIGHT at h ⊢
    omega
  · intro f hf
    simp only [List.append_assoc, List.drop_left]
    unfold MAX_FRAMES_IN_FLIGHT at h hf ⊢
    have hc : self.m_currentFrame = 0 ∨ self.m_currentFrame = 1 := by omega
    have hf2 : f = 0 ∨ f = 1 := by omega
    rcases hc with hc | hc <;> rcases hf2 with rfl | rfl <;> simp [hc, List.count_cons]

/-- Witness of C8: two submissions on the fresh driver (frame 0). -/
theorem submitCommandBufferAndPresent_cycle_witness :
    ∃ s1 s2,
      submitCommandBufferAndPresent acceptingEnv freshDriver 9 = .ok s1 ∧
      submitCommandBufferAndPresent acceptingEnv s1 9 = .ok s2 ∧
      s1.m_currentFrame = 1 ∧ s2.m_currentFrame = 0 := by
  obtain ⟨s1, s2, _, _, h1, h2, h3, _, _, h6, _⟩ :=
    submitCommandBufferAndPresent_cycle acceptingEnv freshDriver 9 9 (by decide)
  exact ⟨s1, s2, h1, h2, h6, h3⟩

/-- Counterexample to C7 as stated: with `count = 2` and a parser that accepts
the buffer, the call does not return `SCE_GNM_ERROR_UNKNOWN` without effect.
If a failed `LOG_ASSERT` gives control back, the first buffer is parsed,
submitted and presented, `m_currentFrame` goes from 0 to 1 and `SCE_OK` is
returned; if it ends the process, the call does not return. -/
theorem submit_count_two_not_rejected :
    submitAndFlipCommandBuffers true acceptingEnv freshDriver 2 [100, 200] [16, 32] [] [] 1 0 0 0
      = .ok (SceStatus.SCE_OK,
          { m_currentFrame := 1, m_commandParsers := 1,
            calls := [GpuCall.processCommandBuffer 0 100 16, GpuCall.vkWaitForFences 0,
              GpuCall.acquireNextImage 0, GpuCall.vkResetFences 0,
              GpuCall.vkQueueSubmit 0 9 0 0, GpuCall.vkQueuePresentKHR 0 0] }) ∧
    submitAndFlipCommandBuffers false acceptingEnv freshDriver 2 [100, 200] [16, 32] [] [] 1 0 0 0
      = .error (Fault.assertionFailed, freshDriver) ∧
    submitCommandBuffers true acceptingEnv freshDriver 2 [100, 200] [16, 32] [] []
      = .ok (SceStatus.SCE_OK,
          { m_currentFrame := 1, m_commandParsers := 1,
            calls := [GpuCall.processCommandBuffer 0 100 16, GpuCall.vkWaitForFences 0,
              GpuCall.acquireNextImage 0, GpuCall.vkResetFences 0,
              GpuCall.vkQueueSubmit 0 9 0 0, GpuCall.vkQueuePresentKHR 0 0] }) ∧
    submitCommandBuffers false acceptingEnv freshDriver 2 [100, 200] [16, 32] [] []
      = .error (Fault.assertionFailed, freshDriver) ∧
    ∀ assertReturns,
      submitAndFlipCommandBuffers assertReturns acceptingEnv freshDriver 2 [100, 200] [16, 32]
        [] [] 1 0 0 0 ≠ .ok (SceStatus.SCE_GNM_ERROR_UNKNOWN, freshDriver) := by
  refine ⟨rfl, rfl, rfl, rfl, fun assertReturns => ?_⟩
  cases assertReturns
  · intro h; cases h
  · intro h; cases h

/-- C7 as the code has it: for `count != 1` the first statement,
`LOG_ASSERT(count == 1)`, fails, and when the failed assertion ends the process
the call returns no status and has no GPU-visible side effect: the object is
then as it was before the call, so `processCommandBuffer` was not invoked, no
queue submission or present was made (no call at all was added to the log) and
`m_currentFrame` is unchanged.  So it is for `submitCommandBuffers`. -/
theorem submit_count_not_one (env : GpuEnv) (self : SceGnmDriver) (count : Nat)
    (dcbGpuAddrs dcbSizesInBytes ccbGpuAddrs ccbSizesInBytes : List Nat)
    (videoOutHandle displayBufferIndex flipMode : Nat) (flipArg : Int)
    (hcount : count ≠ 1) :
    submitAndFlipCommandBuffers false env self count dcbGpuAddrs dcbSizesInBytes ccbGpuAddrs
      ccbSizesInBytes videoOutHandle displayBufferIndex flipMode flipArg
      = .error (Fault.assertionFailed, self) ∧
    submitCommandBuffers false env self count dcbGpuAddrs dcbSizesInBytes ccbGpuAddrs
      ccbSizesInBytes = .error (Fault.assertionFailed, self) ∧
    (∀ fault after,
      (submitAndFlipCommandBuffers false env self count dcbGpuAddrs dcbSizesInBytes ccbGpuAddrs
          ccbSizesInBytes videoOutHandle displayBufferIndex flipMode flipArg
          = .error (fault, after) ∨
        submitCommandBuffers false env self count dcbGpuAddrs dcbSizesInBytes ccbGpuAddrs
          ccbSizesInBytes = .error (fault, after)) →
      after.calls = self.calls ∧ after.m_currentFrame = self.m_currentFrame) ∧
    (∀ result,
      submitAndFlipCommandBuffers false env self count dcbGpuAddrs dcbSizesInBytes ccbGpuAddrs
          ccbSizesInBytes videoOutHandle displayBufferIndex flipMode flipArg ≠ .ok result ∧
      submitCommandBuffers false env self count dcbGpuAddrs dcbSizesInBytes ccbGpuAddrs
          ccbSizesInBytes ≠ .ok result) := by
  have hne : (count == 1) = false := by simpa using hcount
  have hfalse : ∀ v d f (a : Int),
      submitAndFlipCommandBuffers false env self count dcbGpuAddrs dcbSizesInBytes ccbGpuAddrs
        ccbSizesInBytes v d f a = .error (Fault.assertionFailed, self) := by
    intro v d f a
    unfold submitAndFlipCommandBuffers LOG_ASSERT
    rw [hne]
    rfl
  have hwrap : submitCommandBuffers false env self count dcbGpuAddrs dcbSizesInBytes ccbGpuAddrs
      ccbSizesInBytes = .error (Fault.assertionFailed, self) := hfalse _ _ _ _
  refine ⟨hfalse _ _ _ _, hwrap, ?_, ?_⟩
  · intro fault after h
    rw [hfalse, hwrap] at h
    rcases h with h | h
    · cases h
      exact ⟨rfl, rfl⟩
    · cases h
      exact ⟨rfl, rfl⟩
  · intro result
    rw [hfalse, hwrap]
    constructor <;> intro h <;> cases h

/-- Witness of C7 as the code has it, at `count = 2` on the fresh driver with
a fatal assertion: the process ends with the driver untouched. -/
theorem submit_count_not_one_witness :
    (2 : Nat) ≠ 1 ∧
    submitAndFlipCommandBuffers false acceptingEnv freshDriver 2 [100, 200] [16, 32] [] [] 1 0 0 0
      = .error (Fault.assertionFailed, freshDriver) ∧
    submitCommandBuffers false acceptingEnv freshDriver 2 [100, 200] [16, 32] [] []
      = .error (Fault.assertionFailed, freshDriver) :=
  ⟨by decide,
    (submit_count_not_one acceptingEnv freshDriver 2 [100, 200] [16, 32] [] [] 1 0 0 0
      (by decide)).1,
    (submit_count_not_one acceptingEnv freshDriver 2 [100, 200] [16, 32] [] [] 1 0 0 0
      (by decide)).2.1⟩

end sce
